import Mathlib

/-!
Shallow embedding of the CardiiiX capture-session controller
(`src/components/VitalScan.tsx`) and of the service layer
(`src/services/localServices.ts`).

The React component state (`useState` fields) and the mutable refs
(`chunksRef`, `timerRef`, `mediaRecorderRef`) are modelled as one record,
`Sys`.  Each event source of the component (user click, interval tick,
recorder callbacks, the `setTimeout`-scheduled processing handoffs and the
resolution of the two network calls) is modelled as a total step function
on `Sys`; the asynchronous `processRecording` function is split at its
`await` points into an entry step and two response steps, with the phases
of the in-flight invocations recorded in the list `Sys.running` (several
invocations can be suspended at once).  `processRecording` is a plain
const re-created on each render, and its `if (isProcessing) return` guard
reads the `isProcessing` binding captured by the closure, not live state;
the captured value is therefore an explicit argument of the entry step,
and both invocation paths of the program pass `false` for it (see
`runPendingTask`).  Cumulative counters (`Effects`) record the outwardly
visible actions: `clearInterval` calls, device (`MediaRecorder.stop`)
calls, analyze uploads, save calls, and deadline firings.  `setState` is
modelled as an immediate field update and the component is taken to stay
mounted.  Numbers coming from JSON are modelled as `Rat`.
-/

namespace CardiiiX

/-- JS `Math.round`: half-values round toward positive infinity. -/
def jsRound (x : Rat) : Int := ⌊x + 1/2⌋

/-- JS `s || dflt` for a string `s`: the empty string is falsy. -/
def jsOrStr (s : String) (dflt : String) : String := if s = "" then dflt else s

/-- JS `v || dflt` where `v` is a possibly-absent string field. -/
def jsOptOrStr (v : Option String) (dflt : String) : String :=
  match v with
  | some m => jsOrStr m dflt
  | none => dflt

/-- Decimal rendering of a rational is abstracted: exact for integral
values (the only ones the claims inspect); non-integral values are shown
as a fraction. -/
def ratText (x : Rat) : String :=
  if x.den = 1 then toString x.num else toString x.num ++ "/" ++ toString x.den

/-- JS `Number.prototype.toFixed(1)` for the non-negative durations used here. -/
def toFixed1 (x : Rat) : String :=
  let n := jsRound (x * 10)
  toString (n / 10) ++ "." ++ toString (n % 10)

/-- `blood_pressure` object of the analyzer response / `bloodPressure` of the result. -/
structure BloodPressure where
  systolic : Rat
  diastolic : Rat
deriving DecidableEq

/-- `VitalScanResult` from `src/types.ts`. -/
structure VitalScanResult where
  heartRate : Int
  hrv : Rat
  bloodPressure : BloodPressure
  stressLevel : String
  timestamp : String
  aiInterpretation : Option String
deriving DecidableEq

/-- JSON body of a successful-transport analyze response
(`rppgData` in `processRecording`). -/
structure AnalyzeData where
  success : Bool
  error : Option String
  heart_rate : Rat
  hrv : Rat
  blood_pressure : BloodPressure
  stress_index : Rat
  quality : String
  confidence : Rat
  duration_seconds : Rat
  frames_processed : Nat
  face_frames : Nat
deriving DecidableEq

/-- Result of `response.json()`: either a parse failure (which throws in JS)
or the parsed value. -/
inductive JsonResult (α : Type) where
  | parseError (msg : String)
  | value (v : α)
deriving DecidableEq

/-- Outcome of a `fetch` as observed by the caller: a thrown transport
error, or a response carrying `ok`, `status` and the result of reading the
body as JSON. -/
inductive FetchOutcome (α : Type) where
  | thrown (msg : String)
  | resp (ok : Bool) (status : Nat) (body : JsonResult α)
deriving DecidableEq

/-- JSON body of the persistence (`/api/vital-scan/save`) response. -/
structure SaveBody where
  success : Bool
  error : Option String
deriving DecidableEq

/-- The status label embedded in the report header:
`rppgData.heart_rate > 100` choosing between "ELEVATED" and "STABLE". -/
def reportStatus (d : AnalyzeData) : String :=
  if d.heart_rate > 100 then "ELEVATED" else "STABLE"

/-- The `aiText` template literal of `processRecording` (step 2). -/
def aiText (d : AnalyzeData) : String :=
  "### REPORT_STATUS: " ++ reportStatus d ++
  "\n\n**Summary:** Heart rate analysis completed with " ++ d.quality ++
  " signal quality (" ++ ratText d.confidence ++
  "% confidence).\n\n**Clinical Findings:**\n* [BPM: " ++
  toString (jsRound d.heart_rate) ++ "] - " ++ d.quality ++
  " quality detection\n* [BP: " ++ ratText d.blood_pressure.systolic ++ "/" ++
  ratText d.blood_pressure.diastolic ++ "] - Estimated values\n* [HRV: " ++
  ratText d.hrv ++ "] - Heart rate variability\n\n**AI Verdict:** Analysis based on " ++
  toFixed1 d.duration_seconds ++ "s video with " ++ toString d.face_frames ++ "/" ++
  toString d.frames_processed ++ " frames detected."

/-- Step 3 of `processRecording`: mapping the analyzer response into a
`VitalScanResult` (`ts` is `new Date().toISOString()`). -/
def mkScanResult (d : AnalyzeData) (ts : String) : VitalScanResult :=
  { heartRate := jsRound d.heart_rate
    hrv := d.hrv
    bloodPressure := { systolic := d.blood_pressure.systolic
                       diastolic := d.blood_pressure.diastolic }
    stressLevel := if d.stress_index > 50 then "High" else "Normal"
    timestamp := ts
    aiInterpretation := some (aiText d) }

/-- The `useState` fields and the mutable refs of the `VitalScan` component.
`chunks` stores the sizes of the buffered blobs; the timer and recorder
handles only matter through presence, so they are `Option Unit`. -/
structure VitalScanState where
  isRecording : Bool
  recordingTime : Nat
  isProcessing : Bool
  result : Option VitalScanResult
  error : Option String
  storageStatus : Option String
  chunks : List Nat
  timerRef : Option Unit
  mediaRecorderRef : Option Unit
deriving DecidableEq

/-- Suspension point of the async `processRecording` between its awaits. -/
inductive ProcPhase where
  | awaitingAnalyze (blobSize : Nat)
  | awaitingSave (scanR : VitalScanResult)
deriving DecidableEq

/-- Cumulative counts of outwardly visible actions. -/
structure Effects where
  timerCancels : Nat
  deviceStops : Nat
  analyzeCalls : Nat
  saveCalls : Nat
  deadlineFires : Nat
  lastDeadlineElapsed : Option Nat
deriving DecidableEq

/-- Whole-system state: component state plus the scheduling environment.
`timerActive` is whether the interval itself is still scheduled (it can
differ from `timerRef` on the deadline path, which clears the interval
before `forceStopRecording` nulls the ref); `recRecording` is the live
state of the live recorder object; `onstopPending` counts recorder `stop()` calls
whose `onstop` event has not fired yet; `pending` holds the
`setTimeout(() => processRecording(chunksRef.current), _)` callbacks that
have been scheduled but not run; `running` holds the phases of the
`processRecording` invocations currently suspended at an `await`, oldest
first (the dead guard lets invocations overlap, so there can be several). -/
structure Sys where
  vs : VitalScanState
  timerActive : Bool
  recRecording : Bool
  onstopPending : Nat
  pending : List Unit
  running : List ProcPhase
  cameraReady : Bool
  eff : Effects
deriving DecidableEq

/-- `new Blob(capturedChunks).size`: the total size of the buffered chunks. -/
def blobSize (chunks : List Nat) : Nat := chunks.sum

/-- The `catch` + `finally` of `processRecording` for the in-flight
invocation at position `i`:
`setError(err.message || "Failed to analyze video")`, `setIsProcessing(false)`. -/
def failProcAt (s : Sys) (i : Nat) (msg : String) : Sys :=
  { s with vs := { s.vs with error := some (jsOrStr msg "Failed to analyze video")
                             isProcessing := false }
           running := s.running.eraseIdx i }

/-- Entry of `processRecording(chunksRef.current)` up to its first `await`:
the `if (isProcessing) return` guard, `setIsProcessing(true)`,
`setError(null)`, the blob assembly and the zero-size check, then the
analyze `fetch` is issued.  The guard compares `capturedIsProcessing`,
the value of `isProcessing` captured by the closure of the render that
created this `processRecording` — not the live state field. -/
def processRecordingStart (capturedIsProcessing : Bool) (s : Sys) : Sys :=
  if capturedIsProcessing then s
  else
    let vs1 := { s.vs with isProcessing := true, error := none }
    if blobSize vs1.chunks = 0 then
      { s with vs := { vs1 with error := some "No video data captured. Please hold still."
                                isProcessing := false } }
    else
      { s with vs := vs1
               running := s.running ++ [.awaitingAnalyze (blobSize vs1.chunks)]
               eff := { s.eff with analyzeCalls := s.eff.analyzeCalls + 1 } }

/-- `forceStopRecording`, statement block 1: `setIsRecording(false)`,
`setRecordingTime(0)`. -/
def fsFlags (s : Sys) : Sys :=
  { s with vs := { s.vs with isRecording := false, recordingTime := 0 } }

/-- `forceStopRecording`, statement block 2: clear the timer if the handle
is set. -/
def fsTimer (s : Sys) : Sys :=
  if s.vs.timerRef.isSome then
    { s with vs := { s.vs with timerRef := none }
             timerActive := false
             eff := { s.eff with timerCancels := s.eff.timerCancels + 1 } }
  else s

/-- `forceStopRecording`, statement block 3: stop the recorder if the
handle is set and its state is `recording`, then null the handle.  The
`stop()` call makes the recorder fire `onstop` later. -/
def fsRecorder (s : Sys) : Sys :=
  if s.vs.mediaRecorderRef.isSome then
    if s.recRecording then
      { s with vs := { s.vs with mediaRecorderRef := none }
               recRecording := false
               onstopPending := s.onstopPending + 1
               eff := { s.eff with deviceStops := s.eff.deviceStops + 1 } }
    else { s with vs := { s.vs with mediaRecorderRef := none } }
  else s

/-- `forceStopRecording`, statement block 4: if the chunk buffer is
non-empty, schedule `processRecording(chunksRef.current)` via `setTimeout`. -/
def fsSchedule (s : Sys) : Sys :=
  if s.vs.chunks = [] then s else { s with pending := s.pending ++ [()] }

/-- `forceStopRecording` from `VitalScan.tsx`. -/
def forceStopRecording (s : Sys) : Sys :=
  fsSchedule (fsRecorder (fsTimer (fsFlags s)))

/-- `startRecording` from `VitalScan.tsx`: the `isRecording || isProcessing`
guard, then reset of error/result/chunks/elapsed, the recording flag, the
interval timer, and (when the camera stream is bound) a fresh recorder. -/
def startRecording (s : Sys) : Sys :=
  if s.vs.isRecording || s.vs.isProcessing then s
  else
    let s1 : Sys :=
      { s with vs := { s.vs with error := none
                                 result := none
                                 chunks := []
                                 recordingTime := 0
                                 isRecording := true
                                 timerRef := some () }
               timerActive := true }
    if s.cameraReady then
      { s1 with vs := { s1.vs with mediaRecorderRef := some () }
                recRecording := true }
    else s1

/-- `stopRecording`: `if (!isRecording) return; forceStopRecording()`. -/
def stopRecording (s : Sys) : Sys :=
  if s.vs.isRecording then forceStopRecording s else s

/-- `recorder.onerror`: routes to `forceStopRecording` (enabled only while
the recorder object is recording). -/
def recorderError (s : Sys) : Sys :=
  if s.recRecording then forceStopRecording s else s

/-- `recorder.ondataavailable`: pushes a fragment if its size is positive.
A fragment can arrive while the recorder is recording or as the final
flush between `stop()` and the `onstop` event. -/
def dataAvailable (s : Sys) (size : Nat) : Sys :=
  if (s.recRecording || 0 < s.onstopPending) && 0 < size then
    { s with vs := { s.vs with chunks := s.vs.chunks ++ [size] } }
  else s

/-- The deadline branch of the interval callback, before it calls
`forceStopRecording`: `clearInterval(timerId)` on the live interval, and
the deadline event itself (the log line). -/
def deadlineFire (s : Sys) : Sys :=
  { s with timerActive := false
           eff := { s.eff with timerCancels := s.eff.timerCancels + 1
                               deadlineFires := s.eff.deadlineFires + 1
                               lastDeadlineElapsed := some s.vs.recordingTime } }

/-- One firing of the interval callback in `startRecording`: elapsed
advances by one second, `setRecordingTime(elapsed)`, and at
`elapsed >= 30` the interval is cleared and `forceStopRecording` runs. -/
def tick (s : Sys) : Sys :=
  if s.timerActive then
    let s1 : Sys := { s with vs := { s.vs with recordingTime := s.vs.recordingTime + 1 } }
    if 30 ≤ s.vs.recordingTime + 1 then forceStopRecording (deadlineFire s1) else s1
  else s

/-- The recorder `onstop` event: schedules
`setTimeout(() => processRecording(chunksRef.current), 100)`. -/
def onstopFire (s : Sys) : Sys :=
  if 0 < s.onstopPending then
    { s with onstopPending := s.onstopPending - 1, pending := s.pending ++ [()] }
  else s

/-- A scheduled `setTimeout` callback fires: it is consumed and invokes
`processRecording(chunksRef.current)` on the current buffer.  Both
program paths that schedule such a callback hold closures whose captured
`isProcessing` is `false`: `forceStopRecording` is `useCallback(..., [])`
and so is pinned to the first render, whose `isProcessing` is the initial
`false`; `recorder.onstop` captures the `processRecording` of the render
in which `startRecording` ran, where the flag was `false` as well.  The
captured guard value is therefore always `false` here. -/
def runPendingTask (s : Sys) : Sys :=
  match s.pending with
  | [] => s
  | _ :: rest => processRecordingStart false { s with pending := rest }

/-- Resolution of the analyze `fetch` and of `response.json()` for the
in-flight invocation at position `i` of `running`:
the `response.ok` check, the JSON parse, the `success` check, the result
mapping, and the issue of the save `fetch`. -/
def analyzeResponse (s : Sys) (i : Nat) (o : FetchOutcome AnalyzeData)
    (ts : String) : Sys :=
  match s.running[i]? with
  | some (.awaitingAnalyze _) =>
    match o with
    | .thrown msg => failProcAt s i msg
    | .resp ok status body =>
      if ok then
        match body with
        | .parseError msg => failProcAt s i msg
        | .value d =>
          if d.success then
            { s with running := s.running.set i (.awaitingSave (mkScanResult d ts))
                     eff := { s.eff with saveCalls := s.eff.saveCalls + 1 } }
          else failProcAt s i (jsOptOrStr d.error "Analysis failed")
      else failProcAt s i ("Server error: " ++ toString status)
  | _ => s

/-- Resolution of the save `fetch` and of `saveResponse.json()` for the
in-flight invocation at position `i` of `running`.  The code never reads
`saveResponse.ok`: a parsed body drives `storageStatus` by its `success`
flag alone, while a thrown transport error or an unparseable body
propagates to the outer `catch`. -/
def saveResponse (s : Sys) (i : Nat) (o : FetchOutcome SaveBody) : Sys :=
  match s.running[i]? with
  | some (.awaitingSave scanR) =>
    match o with
    | .thrown msg => failProcAt s i msg
    | .resp _ _ body =>
      match body with
      | .parseError msg => failProcAt s i msg
      | .value sb =>
        { s with vs := { s.vs with result := some scanR
                                   storageStatus := some (if sb.success then "cloud" else "local")
                                   isProcessing := false }
                 running := s.running.eraseIdx i }
  | _ => s

/-- The event alphabet of the component. -/
inductive Event where
  | userStart
  | userStop
  | timerTick
  | recError
  | dataAvail (size : Nat)
  | recorderOnstop
  | firePending
  | analyzeResp (i : Nat) (o : FetchOutcome AnalyzeData) (ts : String)
  | saveResp (i : Nat) (o : FetchOutcome SaveBody)

/-- One small step of the system. -/
def stepEv (s : Sys) (e : Event) : Sys :=
  match e with
  | .userStart => startRecording s
  | .userStop => stopRecording s
  | .timerTick => tick s
  | .recError => recorderError s
  | .dataAvail n => dataAvailable s n
  | .recorderOnstop => onstopFire s
  | .firePending => runPendingTask s
  | .analyzeResp i o ts => analyzeResponse s i o ts
  | .saveResp i o => saveResponse s i o

/-- Freshly mounted component: all flags down, nothing scheduled. -/
def initSys (cam : Bool) : Sys :=
  { vs := { isRecording := false
            recordingTime := 0
            isProcessing := false
            result := none
            error := none
            storageStatus := none
            chunks := []
            timerRef := none
            mediaRecorderRef := none }
    timerActive := false
    recRecording := false
    onstopPending := 0
    pending := []
    running := []
    cameraReady := cam
    eff := { timerCancels := 0
             deviceStops := 0
             analyzeCalls := 0
             saveCalls := 0
             deadlineFires := 0
             lastDeadlineElapsed := none } }

/-- Execution of an event trace from the freshly mounted component. -/
def run (cam : Bool) (es : List Event) : Sys := es.foldl stepEv (initSys cam)

/- ### Service layer (`src/services/localServices.ts`) -/

def BACKEND_URL : String := "http://localhost:3000"

def RPPG_URL : String := "http://localhost:8001"

def CORS_PROXY : String := "https://cors-anywhere.herokuapp.com/"

/-- The request a probe actually issues: the (possibly proxy-prefixed)
target URL and the extra headers. -/
structure ProbeRequest where
  targetUrl : String
  headers : List (String × String)
deriving DecidableEq

/-- URL rewriting and headers of `check` inside `checkHealth`. -/
def probeRequest (useProxy : Bool) (url : String) : ProbeRequest :=
  { targetUrl := if useProxy then CORS_PROXY ++ url else url
    headers := if useProxy then [("X-Requested-With", "XMLHttpRequest")] else [] }

/-- What the `fetch` of a probe produced: a thrown transport exception with its
text, or an HTTP response with its status and the measured round-trip
latency. -/
inductive ProbeOutcome where
  | thrown (raw : String)
  | resp (status : Nat) (latencyMs : Nat)
deriving DecidableEq

/-- Browser `Response.ok`: status in the 2xx range. -/
def respOkStatus (status : Nat) : Bool := decide (200 ≤ status ∧ status < 300)

/-- `ServiceStatus` from `localServices.ts`. -/
structure ServiceStatus where
  ok : Bool
  message : String
  errorType : Option String
  rawError : Option String
  latency : Option Nat
  usingProxy : Option Bool
deriving DecidableEq

/-- The inner `check` of `localServices.checkHealth`. -/
def check (useProxy : Bool) (o : ProbeOutcome) : ServiceStatus :=
  match o with
  | .resp status lat =>
    { ok := respOkStatus status
      message := if respOkStatus status then "Connected" else "Error " ++ toString status
      errorType := none
      rawError := none
      latency := some lat
      usingProxy := some useProxy }
  | .thrown raw =>
    { ok := false
      message := "Network Error"
      errorType := some "CORS"
      rawError := some raw
      latency := none
      usingProxy := none }

/-- `localServices.checkHealth`: both probes are dispatched
(`Promise.all`) and classified independently. -/
def checkHealth (useProxy : Bool) (oBackend oRppg : ProbeOutcome) :
    ServiceStatus × ServiceStatus :=
  (check useProxy oBackend, check useProxy oRppg)

/-- The two requests `checkHealth` dispatches. -/
def checkHealthRequests (useProxy : Bool) : ProbeRequest × ProbeRequest :=
  (probeRequest useProxy (BACKEND_URL ++ "/api/health"),
   probeRequest useProxy (RPPG_URL ++ "/health"))

/-- A MongoDB scan document as served by `GET /api/scans`
(`src/backend/routes/scans.js`, schema in the `Scan` model); `confidence`
and `userId` are stored fields that `getScanHistory` does not forward. -/
structure ScanDoc where
  heartRate : Rat
  hrv : Rat
  bloodPressure : BloodPressure
  stressIndex : Rat
  aiInterpretation : String
  timestamp : String
  mongoId : String
  confidence : Rat
  userId : String
deriving DecidableEq

/-- One record of the list `getScanHistory` returns. -/
structure ScanHistoryItem where
  heartRate : Rat
  hrv : Rat
  bloodPressure : BloodPressure
  stressIndex : Rat
  aiInterpretation : String
  timestamp : String
  mongoId : String
deriving DecidableEq

/-- The per-record transform inside `getScanHistory`. -/
def mapScan (scan : ScanDoc) : ScanHistoryItem :=
  { heartRate := scan.heartRate
    hrv := scan.hrv
    bloodPressure := scan.bloodPressure
    stressIndex := scan.stressIndex
    aiInterpretation := scan.aiInterpretation
    timestamp := scan.timestamp
    mongoId := scan.mongoId }

/-- `localServices.getScanHistory`: non-2xx responses, thrown transport
errors and JSON parse failures all yield `[]`; a 2xx response is mapped
record by record. -/
def getScanHistory (o : FetchOutcome (List ScanDoc)) : List ScanHistoryItem :=
  match o with
  | .thrown _ => []
  | .resp ok _ body =>
    if ok then
      match body with
      | .parseError _ => []
      | .value data => data.map mapScan
    else []

/- ### Helper lemmas about `forceStopRecording` -/

/-- On a state whose timer and recorder handles are already null,
`forceStopRecording` touches neither handle and performs no
`clearInterval` and no device stop. -/
theorem forceStop_inert (s : Sys) (h1 : s.vs.timerRef = none)
    (h2 : s.vs.mediaRecorderRef = none) :
    (forceStopRecording s).vs.timerRef = none ∧
    (forceStopRecording s).vs.mediaRecorderRef = none ∧
    (forceStopRecording s).eff.timerCancels = s.eff.timerCancels ∧
    (forceStopRecording s).eff.deviceStops = s.eff.deviceStops := by
  simp only [forceStopRecording, fsFlags, fsTimer, fsRecorder, fsSchedule]
  simp only [h1, h2, Option.isSome_none, Bool.false_eq_true, if_false]
  split <;> simp [h1, h2]

/-- On a state with a live timer handle and a recorder handle in the
`recording` state, `forceStopRecording` cancels the timer once, stops the
device once, and nulls both handles. -/
theorem forceStop_active (s : Sys) (h1 : s.vs.timerRef = some ())
    (h2 : s.vs.mediaRecorderRef = some ()) (h3 : s.recRecording = true) :
    (forceStopRecording s).eff.timerCancels = s.eff.timerCancels + 1 ∧
    (forceStopRecording s).eff.deviceStops = s.eff.deviceStops + 1 ∧
    (forceStopRecording s).vs.timerRef = none ∧
    (forceStopRecording s).vs.mediaRecorderRef = none := by
  simp only [forceStopRecording, fsFlags, fsTimer, fsRecorder, fsSchedule]
  simp only [h1, h2, h3, Option.isSome_some, if_true]
  split <;> simp

/-- Iterating `forceStopRecording` over a state with both handles null
never touches the handles or the stop/cancel counters. -/
theorem forceStop_iter_inert (s : Sys) (h1 : s.vs.timerRef = none)
    (h2 : s.vs.mediaRecorderRef = none) : ∀ n : Nat,
    (forceStopRecording^[n] s).vs.timerRef = none ∧
    (forceStopRecording^[n] s).vs.mediaRecorderRef = none ∧
    (forceStopRecording^[n] s).eff.timerCancels = s.eff.timerCancels ∧
    (forceStopRecording^[n] s).eff.deviceStops = s.eff.deviceStops := by
  intro n
  induction n with
  | zero => exact ⟨h1, h2, rfl, rfl⟩
  | succ k ih =>
    obtain ⟨i1, i2, i3, i4⟩ := ih
    have h := forceStop_inert (forceStopRecording^[k] s) i1 i2
    rw [Function.iterate_succ_apply']
    exact ⟨h.1, h.2.1, h.2.2.1.trans i3, h.2.2.2.trans i4⟩

/-- C1: on a session with a live timer and a recording device, repeated
invocation of `forceStopRecording` performs the device stop and the timer
cancel exactly once — the first call does each once and nulls both
handles, and every further call (all of which are ordinary total calls,
raising no exception) leaves both handles null and performs no additional
device stop or timer cancel. -/
theorem forceStop_idempotent (s : Sys) (h1 : s.vs.timerRef = some ())
    (h2 : s.vs.mediaRecorderRef = some ()) (h3 : s.recRecording = true) :
    ((forceStopRecording s).eff.timerCancels = s.eff.timerCancels + 1 ∧
     (forceStopRecording s).eff.deviceStops = s.eff.deviceStops + 1 ∧
     (forceStopRecording s).vs.timerRef = none ∧
     (forceStopRecording s).vs.mediaRecorderRef = none) ∧
    ∀ n : Nat,
      (forceStopRecording^[n] (forceStopRecording s)).vs.timerRef = none ∧
      (forceStopRecording^[n] (forceStopRecording s)).vs.mediaRecorderRef = none ∧
      (forceStopRecording^[n] (forceStopRecording s)).eff.timerCancels =
        s.eff.timerCancels + 1 ∧
      (forceStopRecording^[n] (forceStopRecording s)).eff.deviceStops =
        s.eff.deviceStops + 1 := by
  obtain ⟨a1, a2, a3, a4⟩ := forceStop_active s h1 h2 h3
  refine ⟨⟨a1, a2, a3, a4⟩, fun n => ?_⟩
  obtain ⟨i1, i2, i3, i4⟩ := forceStop_iter_inert (forceStopRecording s) a3 a4 n
  exact ⟨i1, i2, i3.trans a1, i4.trans a2⟩

/-- C1 witness: the theorem applied to the state right after a recording
has started from the freshly mounted component, iterated three further
times. -/
theorem forceStop_idempotent_witness :
    (startRecording (initSys true)).vs.timerRef = some () ∧
    (forceStopRecording (startRecording (initSys true))).eff.deviceStops =
      (startRecording (initSys true)).eff.deviceStops + 1 ∧
    (forceStopRecording^[3] (forceStopRecording (startRecording (initSys true)))).vs.timerRef
      = none ∧
    (forceStopRecording^[3] (forceStopRecording (startRecording (initSys true)))).eff.deviceStops
      = (startRecording (initSys true)).eff.deviceStops + 1 := by
  have h := forceStop_idempotent (startRecording (initSys true))
    (by decide) (by decide) (by decide)
  exact ⟨by decide, h.1.2.1, (h.2 3).1, (h.2 3).2.2.2⟩

/-- C4: `startRecording` invoked while `isRecording` or `isProcessing` is
true is a complete no-op: the whole system state — every state field, the
chunk buffer, the timer, the recorder, the scheduled callbacks and the
effect counters — is unchanged. -/
theorem startRecording_guard (s : Sys)
    (h : s.vs.isRecording = true ∨ s.vs.isProcessing = true) :
    startRecording s = s := by
  unfold startRecording
  rcases h with h | h <;> simp [h]

/-- A concrete state in which processing is in flight. -/
def busySys : Sys :=
  { initSys true with vs := { (initSys true).vs with isProcessing := true } }

/-- C4 witness: the theorem applied to a concrete mid-processing state. -/
theorem startRecording_guard_witness :
    busySys.vs.isProcessing = true ∧ startRecording busySys = busySys :=
  ⟨rfl, startRecording_guard busySys (Or.inr rfl)⟩

/- ### Shared concrete data for witnesses and counterexamples -/

/-- The analyzer response from the concrete scenario of the spec. -/
def sampleAnalyze : AnalyzeData :=
  { success := true
    error := none
    heart_rate := 105
    hrv := 42
    blood_pressure := { systolic := 128, diastolic := 82 }
    stress_index := 61
    quality := "good"
    confidence := 88
    duration_seconds := 298/10
    frames_processed := 300
    face_frames := 287 }

def tsSample : String := "2026-01-01T00:00:00.000Z"

def goodAnalyzeResp : FetchOutcome AnalyzeData := .resp true 200 (.value sampleAnalyze)

/- ### C6: empty capture -/

/-- C6: invoking `processRecording` on a buffer of total size zero takes
the zero-size error branch: the empty-capture message is stored, the
processing flag ends down, no result is produced, and no analyze (or any
other) request is issued. -/
theorem empty_capture_aborts (s : Sys) (_hp : s.vs.isProcessing = false)
    (hz : blobSize s.vs.chunks = 0) :
    (processRecordingStart false s).vs.error =
      some "No video data captured. Please hold still." ∧
    (processRecordingStart false s).vs.isProcessing = false ∧
    (processRecordingStart false s).vs.result = s.vs.result ∧
    (processRecordingStart false s).vs.storageStatus = s.vs.storageStatus ∧
    (processRecordingStart false s).running = s.running ∧
    (processRecordingStart false s).eff = s.eff := by
  simp [processRecordingStart, hz]

/-- C6 witness: the theorem applied to the freshly mounted component,
whose buffer is empty. -/
theorem empty_capture_aborts_witness :
    (initSys true).vs.isProcessing = false ∧
    blobSize (initSys true).vs.chunks = 0 ∧
    (processRecordingStart false (initSys true)).vs.error =
      some "No video data captured. Please hold still." ∧
    (processRecordingStart false (initSys true)).eff = (initSys true).eff := by
  have h := empty_capture_aborts (initSys true) rfl rfl
  exact ⟨rfl, rfl, h.1, h.2.2.2.2.2⟩

/- ### C2: the dead `isProcessing` guard and the duplicate handoff -/

/-- A single session in which both the recorder `onstop` callback and
`forceStopRecording` schedule a handoff, and the second scheduled
callback fires while the first invocation is still awaiting the analyze
fetch — the ordinary timing, since the two callbacks are scheduled 100ms
apart and the analyze upload of a 30s video takes longer than that. -/
def doubleHandoffTrace : List Event :=
  [.userStart, .dataAvail 5, .userStop, .recorderOnstop, .firePending, .firePending]

/-- C2 counterexample: in a single session the analyze upload is issued
twice, and the second upload goes out while the first is still in flight.
Both scheduled callbacks invoke `processRecording` through closures whose
captured `isProcessing` is `false` (`forceStopRecording` is pinned by
`useCallback(..., [])` to the first render; `recorder.onstop` captures
the render in which recording started), so the guard stops neither
invocation: after the second callback fires, two analyze requests have
been issued and two pipeline invocations are suspended concurrently. -/
theorem processRecording_double_handoff :
    (run true doubleHandoffTrace).eff.analyzeCalls = 2 ∧
    (run true doubleHandoffTrace).running.length = 2 ∧
    (run true doubleHandoffTrace).vs.isProcessing = true := by
  exact ⟨rfl, rfl, rfl⟩

/-- C2 (amended): the `isProcessing` guard never suppresses an actual
invocation — every scheduled handoff that fires with a non-empty buffer
issues its own analyze upload and adds its own suspended pipeline
invocation, whatever the live `isProcessing` value, because both
invocation paths go through stale closures whose captured `isProcessing`
is `false`.  In particular a handoff firing while an earlier upload is
still in flight proceeds rather than returning immediately. -/
theorem processRecording_no_dedup (s : Sys) (hp : s.pending ≠ [])
    (hz : blobSize s.vs.chunks ≠ 0) :
    (runPendingTask s).eff.analyzeCalls = s.eff.analyzeCalls + 1 ∧
    (runPendingTask s).vs.isProcessing = true ∧
    (runPendingTask s).running =
      s.running ++ [.awaitingAnalyze (blobSize s.vs.chunks)] ∧
    (runPendingTask s).vs.error = none := by
  unfold runPendingTask
  cases hpend : s.pending with
  | nil => exact absurd hpend hp
  | cons a rest => simp [processRecordingStart, hpend, hz]

/-- A concrete state with one upload already in flight (`isProcessing`
up, one suspended invocation) and one scheduled handoff. -/
def midFlightSys : Sys :=
  { initSys true with
    vs := { (initSys true).vs with isProcessing := true, chunks := [5] }
    pending := [()]
    running := [.awaitingAnalyze 5] }

/-- C2 witness: the amended theorem applied to the concrete mid-flight
state — the handoff proceeds and a second upload is issued. -/
theorem processRecording_no_dedup_witness :
    midFlightSys.vs.isProcessing = true ∧
    midFlightSys.pending ≠ [] ∧
    (runPendingTask midFlightSys).eff.analyzeCalls =
      midFlightSys.eff.analyzeCalls + 1 ∧
    (runPendingTask midFlightSys).running =
      [.awaitingAnalyze 5, .awaitingAnalyze 5] := by
  have h := processRecording_no_dedup midFlightSys (by decide) (by decide)
  exact ⟨rfl, by decide, h.1, h.2.2.1⟩

/- ### C3: persistence failure handling -/

/-- A session in which the analyze call succeeds and the save `fetch`
throws a transport error. -/
def saveTransportFailTrace : List Event :=
  [.userStart, .dataAvail 5, .userStop, .firePending,
   .analyzeResp 0 goodAnalyzeResp tsSample,
   .saveResp 0 (.thrown "TypeError: Failed to fetch")]

/-- C3 counterexample: a transport error of the persistence call is caught
by the outer `catch` of `processRecording`, so the overall operation
fails: the session ends with no result, no storage outcome, and the error
state set — not with a result and `storageStatus = local`. -/
theorem persistence_transport_error_fails :
    (run true saveTransportFailTrace).eff.analyzeCalls = 1 ∧
    (run true saveTransportFailTrace).eff.saveCalls = 1 ∧
    (run true saveTransportFailTrace).vs.result = none ∧
    (run true saveTransportFailTrace).vs.storageStatus = none ∧
    (run true saveTransportFailTrace).vs.error = some "TypeError: Failed to fetch" := by
  exact ⟨rfl, rfl, rfl, rfl, rfl⟩

/-- C3 (amended): after a successful analyze call, a persistence response
whose body parses to JSON with `success:false` — whatever its HTTP status,
2xx or not — does not fail the operation: the result is stored, the
storage outcome degrades to `local`, the error state is untouched and the
processing flag drops.  A thrown transport error or an unparseable body,
by contrast, reaches the outer `catch`: the error state is set and the
result is not stored. -/
theorem persistence_failure_flag_degrades (s : Sys) (i : Nat)
    (scanR : VitalScanResult)
    (hrun : s.running[i]? = some (.awaitingSave scanR)) :
    (∀ (ok : Bool) (status : Nat) (e : Option String),
      (saveResponse s i (.resp ok status (.value ⟨false, e⟩))).vs.result = some scanR ∧
      (saveResponse s i (.resp ok status (.value ⟨false, e⟩))).vs.storageStatus = some "local" ∧
      (saveResponse s i (.resp ok status (.value ⟨false, e⟩))).vs.error = s.vs.error ∧
      (saveResponse s i (.resp ok status (.value ⟨false, e⟩))).vs.isProcessing = false) ∧
    (∀ msg : String,
      (saveResponse s i (.thrown msg)).vs.error =
        some (jsOrStr msg "Failed to analyze video") ∧
      (saveResponse s i (.thrown msg)).vs.result = s.vs.result ∧
      (saveResponse s i (.thrown msg)).vs.storageStatus = s.vs.storageStatus) ∧
    (∀ (ok : Bool) (status : Nat) (msg : String),
      (saveResponse s i (.resp ok status (.parseError msg))).vs.error =
        some (jsOrStr msg "Failed to analyze video") ∧
      (saveResponse s i (.resp ok status (.parseError msg))).vs.result = s.vs.result) := by
  refine ⟨fun ok status e => ?_, fun msg => ?_, fun ok status msg => ?_⟩ <;>
    simp [saveResponse, hrun, failProcAt]

/-- A concrete state suspended at the save call. -/
def awaitingSaveSys : Sys :=
  { initSys true with running := [.awaitingSave (mkScanResult sampleAnalyze tsSample)] }

/-- C3 witness: the amended theorem applied to a concrete suspended state,
for an explicit `success:false` persistence body. -/
theorem persistence_failure_flag_degrades_witness :
    awaitingSaveSys.running[0]? = some (.awaitingSave (mkScanResult sampleAnalyze tsSample)) ∧
    (saveResponse awaitingSaveSys 0 (.resp true 200 (.value ⟨false, some "db down"⟩))).vs.result =
      some (mkScanResult sampleAnalyze tsSample) ∧
    (saveResponse awaitingSaveSys 0 (.resp true 200 (.value ⟨false, some "db down"⟩))).vs.storageStatus =
      some "local" := by
  have h := persistence_failure_flag_degrades awaitingSaveSys 0
    (mkScanResult sampleAnalyze tsSample) rfl
  exact ⟨rfl, (h.1 true 200 (some "db down")).1, (h.1 true 200 (some "db down")).2.1⟩

/- ### C5: stress and status thresholds -/

/-- C5: for a successful analyze response, the stress
level of the mapped result is `High` iff the raw stress index strictly exceeds 50, and the
report status label is `ELEVATED` iff the raw heart rate strictly exceeds
100; the boundary values 50 and 100 map to `Normal` and `STABLE`. -/
theorem stress_and_status_thresholds (d : AnalyzeData) (ts : String) :
    (((mkScanResult d ts).stressLevel = "High") ↔ 50 < d.stress_index) ∧
    (((mkScanResult d ts).stressLevel = "Normal") ↔ ¬ 50 < d.stress_index) ∧
    ((reportStatus d = "ELEVATED") ↔ 100 < d.heart_rate) ∧
    ((reportStatus d = "STABLE") ↔ ¬ 100 < d.heart_rate) ∧
    (d.stress_index = 50 → (mkScanResult d ts).stressLevel = "Normal") ∧
    (d.heart_rate = 100 → reportStatus d = "STABLE") ∧
    (mkScanResult d ts).aiInterpretation = some (aiText d) := by
  refine ⟨?_, ?_, ?_, ?_, fun h => ?_, fun h => ?_, rfl⟩
  · by_cases h : 50 < d.stress_index <;> simp [mkScanResult, h]
  · by_cases h : 50 < d.stress_index <;> simp [mkScanResult, h]
  · by_cases h : 100 < d.heart_rate <;> simp [reportStatus, h]
  · by_cases h : 100 < d.heart_rate <;> simp [reportStatus, h]
  · simp [mkScanResult, h]
  · simp [reportStatus, h]

/-- C5 witness: the concrete scenario of the spec — heart rate 105, stress
index 61 — yields `stressLevel = "High"`, status label `"ELEVATED"`, and
`heartRate = 105`. -/
theorem stress_and_status_thresholds_witness :
    sampleAnalyze.success = true ∧
    (mkScanResult sampleAnalyze tsSample).stressLevel = "High" ∧
    reportStatus sampleAnalyze = "ELEVATED" ∧
    (mkScanResult sampleAnalyze tsSample).heartRate = 105 := by
  have h := stress_and_status_thresholds sampleAnalyze tsSample
  refine ⟨rfl, h.1.mpr (by norm_num [sampleAnalyze]),
    h.2.2.1.mpr (by norm_num [sampleAnalyze]), ?_⟩
  show jsRound sampleAnalyze.heart_rate = 105
  norm_num [jsRound, sampleAnalyze]

/- ### C8: the session timer and the deadline -/

/-- Fields that the timer-clearing block of `forceStopRecording` leaves
unchanged. -/
theorem fsTimer_pres (t : Sys) :
    (fsTimer t).eff.deadlineFires = t.eff.deadlineFires ∧
    (fsTimer t).eff.lastDeadlineElapsed = t.eff.lastDeadlineElapsed ∧
    (fsTimer t).vs.isRecording = t.vs.isRecording ∧
    (fsTimer t).vs.isProcessing = t.vs.isProcessing ∧
    (fsTimer t).pending = t.pending ∧
    (fsTimer t).onstopPending = t.onstopPending ∧
    (fsTimer t).running = t.running ∧
    (fsTimer t).recRecording = t.recRecording ∧
    (fsTimer t).vs.chunks = t.vs.chunks ∧
    (fsTimer t).vs.mediaRecorderRef = t.vs.mediaRecorderRef := by
  by_cases h : t.vs.timerRef.isSome <;> simp [fsTimer, h]

/-- After the timer-clearing block the timer handle is always null. -/
theorem fsTimer_timerRef (t : Sys) : (fsTimer t).vs.timerRef = none := by
  by_cases h : t.vs.timerRef.isSome
  · simp [fsTimer, h]
  · simp only [fsTimer, h, if_false, Bool.false_eq_true]
    exact Option.not_isSome_iff_eq_none.mp h

/-- The timer-clearing block never re-arms a cleared interval. -/
theorem fsTimer_inactive (t : Sys) (h : t.timerActive = false) :
    (fsTimer t).timerActive = false := by
  by_cases h1 : t.vs.timerRef.isSome <;> simp [fsTimer, h1, h]

/-- Fields that the recorder-stopping block of `forceStopRecording`
leaves unchanged. -/
theorem fsRecorder_pres (t : Sys) :
    (fsRecorder t).eff.deadlineFires = t.eff.deadlineFires ∧
    (fsRecorder t).eff.lastDeadlineElapsed = t.eff.lastDeadlineElapsed ∧
    (fsRecorder t).eff.timerCancels = t.eff.timerCancels ∧
    (fsRecorder t).vs.isRecording = t.vs.isRecording ∧
    (fsRecorder t).vs.isProcessing = t.vs.isProcessing ∧
    (fsRecorder t).pending = t.pending ∧
    (fsRecorder t).running = t.running ∧
    (fsRecorder t).vs.chunks = t.vs.chunks ∧
    (fsRecorder t).vs.timerRef = t.vs.timerRef ∧
    (fsRecorder t).timerActive = t.timerActive := by
  by_cases h1 : t.vs.mediaRecorderRef.isSome <;>
    by_cases h2 : t.recRecording = true <;> simp [fsRecorder, h1, h2]

/-- Fields that the scheduling block of `forceStopRecording` leaves
unchanged. -/
theorem fsSchedule_pres (t : Sys) :
    (fsSchedule t).vs = t.vs ∧
    (fsSchedule t).eff = t.eff ∧
    (fsSchedule t).timerActive = t.timerActive ∧
    (fsSchedule t).recRecording = t.recRecording ∧
    (fsSchedule t).onstopPending = t.onstopPending ∧
    (fsSchedule t).running = t.running := by
  by_cases h : t.vs.chunks = [] <;> simp [fsSchedule, h]

/-- `forceStopRecording` never touches the deadline counter. -/
theorem forceStop_deadlineFires (t : Sys) :
    (forceStopRecording t).eff.deadlineFires = t.eff.deadlineFires := by
  unfold forceStopRecording
  rw [congrArg Effects.deadlineFires (fsSchedule_pres _).2.1,
    (fsRecorder_pres _).1, (fsTimer_pres _).1]
  rfl

/-- `forceStopRecording` never touches the recorded deadline elapsed value. -/
theorem forceStop_lastDeadline (t : Sys) :
    (forceStopRecording t).eff.lastDeadlineElapsed = t.eff.lastDeadlineElapsed := by
  unfold forceStopRecording
  rw [congrArg Effects.lastDeadlineElapsed (fsSchedule_pres _).2.1,
    (fsRecorder_pres _).2.1, (fsTimer_pres _).2.1]
  rfl

/-- After `forceStopRecording` the timer handle is always null. -/
theorem forceStop_timerRefNone (t : Sys) :
    (forceStopRecording t).vs.timerRef = none := by
  unfold forceStopRecording
  rw [congrArg VitalScanState.timerRef (fsSchedule_pres _).1,
    (fsRecorder_pres _).2.2.2.2.2.2.2.2.1]
  exact fsTimer_timerRef _

/-- `forceStopRecording` never re-arms a cleared interval. -/
theorem forceStop_timerInactive (t : Sys) (h : t.timerActive = false) :
    (forceStopRecording t).timerActive = false := by
  unfold forceStopRecording
  rw [(fsSchedule_pres _).2.2.1, (fsRecorder_pres _).2.2.2.2.2.2.2.2.2]
  exact fsTimer_inactive _ h

/-- A tick of a cleared interval does nothing. -/
theorem tick_inactive (t : Sys) (h : t.timerActive = false) : tick t = t := by
  unfold tick
  simp [h]

/-- A tick strictly before the deadline only advances the elapsed time. -/
theorem tick_advance (t : Sys) (h : t.timerActive = true)
    (hlt : t.vs.recordingTime + 1 < 30) :
    tick t = { t with vs := { t.vs with recordingTime := t.vs.recordingTime + 1 } } := by
  unfold tick
  rw [if_pos h, if_neg (by omega)]

/-- The tick that reaches the deadline clears the interval, fires the
deadline event and runs `forceStopRecording`. -/
theorem tick_deadline (t : Sys) (h : t.timerActive = true)
    (hge : 30 ≤ t.vs.recordingTime + 1) :
    tick t = forceStopRecording (deadlineFire
      { t with vs := { t.vs with recordingTime := t.vs.recordingTime + 1 } }) := by
  unfold tick
  rw [if_pos h, if_pos hge]

/-- Projections of `startRecording` out of an idle state. -/
theorem startRecording_projs (s : Sys) (hr : s.vs.isRecording = false)
    (hp : s.vs.isProcessing = false) :
    (startRecording s).vs.recordingTime = 0 ∧
    (startRecording s).timerActive = true ∧
    (startRecording s).eff = s.eff ∧
    (startRecording s).vs.isRecording = true ∧
    (startRecording s).vs.timerRef = some () ∧
    (startRecording s).vs.chunks = [] ∧
    (startRecording s).pending = s.pending ∧
    (startRecording s).onstopPending = s.onstopPending ∧
    (startRecording s).running = s.running ∧
    (startRecording s).vs.isProcessing = s.vs.isProcessing := by
  unfold startRecording
  rw [if_neg (by simp [hr, hp])]
  split <;> simp

/-- Iterated ticks below the deadline only accumulate elapsed seconds. -/
theorem tick_iter_below (s1 : Sys) (h0 : s1.vs.recordingTime = 0)
    (ht : s1.timerActive = true) :
    ∀ k, k ≤ 29 →
      tick^[k] s1 = { s1 with vs := { s1.vs with recordingTime := k } } := by
  intro k
  induction k with
  | zero =>
    intro _
    conv_rhs => rw [← h0]
    rfl
  | succ n ih =>
    intro hk
    rw [Function.iterate_succ_apply', ih (by omega)]
    rw [tick_advance { s1 with vs := { s1.vs with recordingTime := n } } ht
      (by show n + 1 < 30; omega)]

/-- C8: for a session started from an idle state in which the recording
runs uninterrupted (only timer ticks occur), the first 29 ticks only
advance elapsed time without firing the deadline; the 30th tick fires the
deadline event exactly once, with elapsed equal to the configured
duration 30, after which the interval is cleared, the handle is null and
every further tick is a no-op; and the deadline branch invokes the very
same `forceStopRecording` operation as the user-stop and recorder-error
paths. -/
theorem deadline_fires_once (s : Sys) (hr : s.vs.isRecording = false)
    (hp : s.vs.isProcessing = false) :
    (∀ k, k ≤ 29 →
      (tick^[k] (startRecording s)).vs.recordingTime = k ∧
      (tick^[k] (startRecording s)).timerActive = true ∧
      (tick^[k] (startRecording s)).eff.deadlineFires = s.eff.deadlineFires) ∧
    ((tick^[30] (startRecording s)).eff.deadlineFires = s.eff.deadlineFires + 1 ∧
     (tick^[30] (startRecording s)).eff.lastDeadlineElapsed = some 30 ∧
     (tick^[30] (startRecording s)).timerActive = false ∧
     (tick^[30] (startRecording s)).vs.timerRef = none) ∧
    (∀ m, tick^[30 + m] (startRecording s) = tick^[30] (startRecording s)) ∧
    (∀ t : Sys, t.timerActive = true → 30 ≤ t.vs.recordingTime + 1 →
      tick t = forceStopRecording (deadlineFire
        { t with vs := { t.vs with recordingTime := t.vs.recordingTime + 1 } })) ∧
    (∀ t : Sys, t.vs.isRecording = true → stopRecording t = forceStopRecording t) ∧
    (∀ t : Sys, t.recRecording = true → recorderError t = forceStopRecording t) := by
  obtain ⟨p0, pAct, pEff, -, -, -, -, -, -, -⟩ := startRecording_projs s hr hp
  have hiter := tick_iter_below (startRecording s) p0 pAct
  have h29 := hiter 29 (by omega)
  have h30 : tick^[30] (startRecording s) = forceStopRecording (deadlineFire
      { startRecording s with
        vs := { (startRecording s).vs with recordingTime := 30 } }) := by
    have h3029 : (30 : Nat) = 29 + 1 := by omega
    rw [h3029, Function.iterate_succ_apply', h29,
      tick_deadline
        { startRecording s with
          vs := { (startRecording s).vs with recordingTime := 29 } } pAct
        (by show (30 : Nat) ≤ 29 + 1; omega)]
  have hfires : (tick^[30] (startRecording s)).eff.deadlineFires =
      s.eff.deadlineFires + 1 := by
    rw [h30, forceStop_deadlineFires]
    simp [deadlineFire, pEff]
  have hlast : (tick^[30] (startRecording s)).eff.lastDeadlineElapsed = some 30 := by
    rw [h30, forceStop_lastDeadline]
    rfl
  have hact : (tick^[30] (startRecording s)).timerActive = false := by
    rw [h30]
    exact forceStop_timerInactive _ rfl
  have href : (tick^[30] (startRecording s)).vs.timerRef = none := by
    rw [h30]
    exact forceStop_timerRefNone _
  refine ⟨fun k hk => ?_, ⟨hfires, hlast, hact, href⟩, fun m => ?_, ?_, ?_, ?_⟩
  · rw [hiter k hk]
    exact ⟨rfl, pAct, congrArg Effects.deadlineFires pEff⟩
  · induction m with
    | zero => rfl
    | succ n ih =>
      have : 30 + (n + 1) = (30 + n) + 1 := by omega
      rw [this, Function.iterate_succ_apply', ih, tick_inactive _ hact]
  · exact fun t h1 h2 => tick_deadline t h1 h2
  · intro t h1
    unfold stopRecording
    rw [if_pos h1]
  · intro t h1
    unfold recorderError
    rw [if_pos h1]

/-- C8 witness: the theorem applied to the freshly mounted component. -/
theorem deadline_fires_once_witness :
    (tick^[15] (startRecording (initSys true))).vs.recordingTime = 15 ∧
    (tick^[15] (startRecording (initSys true))).eff.deadlineFires = 0 ∧
    (tick^[30] (startRecording (initSys true))).eff.deadlineFires = 0 + 1 ∧
    (tick^[30] (startRecording (initSys true))).eff.lastDeadlineElapsed = some 30 ∧
    tick^[30 + 7] (startRecording (initSys true)) =
      tick^[30] (startRecording (initSys true)) := by
  have h := deadline_fires_once (initSys true) rfl rfl
  exact ⟨(h.1 15 (by omega)).1, (h.1 15 (by omega)).2.2, h.2.1.1, h.2.1.2.1, h.2.2.1 7⟩

/- ### C7: the `isRecording`/`isProcessing` exclusion -/

/-- `forceStopRecording` always drops the recording flag. -/
theorem forceStop_isRecording (t : Sys) :
    (forceStopRecording t).vs.isRecording = false := by
  unfold forceStopRecording
  rw [congrArg VitalScanState.isRecording (fsSchedule_pres _).1,
    (fsRecorder_pres _).2.2.2.1, (fsTimer_pres _).2.2.1]
  rfl

/-- `processRecording` never touches the recording flag, whatever guard
value its closure captured. -/
theorem proc_isRecording (cap : Bool) (t : Sys) :
    (processRecordingStart cap t).vs.isRecording = t.vs.isRecording := by
  cases cap with
  | true => simp [processRecordingStart]
  | false =>
    by_cases h2 : blobSize t.vs.chunks = 0 <;> simp [processRecordingStart, h2]

/-- The `catch`/`finally` of `processRecording` never touches the
recording flag. -/
theorem failProcAt_isRecording (t : Sys) (i : Nat) (m : String) :
    (failProcAt t i m).vs.isRecording = t.vs.isRecording := by
  simp [failProcAt]

/-- The analyze-response step never touches the recording flag. -/
theorem analyze_isRecording (s : Sys) (i : Nat) (o : FetchOutcome AnalyzeData)
    (ts : String) :
    (analyzeResponse s i o ts).vs.isRecording = s.vs.isRecording := by
  unfold analyzeResponse
  split
  · cases o with
    | thrown msg => exact failProcAt_isRecording _ _ _
    | resp ok status body =>
      dsimp only
      by_cases hok : ok = true
      · rw [if_pos hok]
        cases body with
        | parseError m => exact failProcAt_isRecording _ _ _
        | value d =>
          dsimp only
          by_cases hs : d.success = true
          · rw [if_pos hs]
          · rw [if_neg hs]
            exact failProcAt_isRecording _ _ _
      · rw [if_neg hok]
        exact failProcAt_isRecording _ _ _
  · rfl

/-- The save-response step never touches the recording flag. -/
theorem save_isRecording (s : Sys) (i : Nat) (o : FetchOutcome SaveBody) :
    (saveResponse s i o).vs.isRecording = s.vs.isRecording := by
  unfold saveResponse
  split
  · cases o with
    | thrown msg => exact failProcAt_isRecording _ _ _
    | resp ok status body =>
      cases body with
      | parseError m => exact failProcAt_isRecording _ _ _
      | value sb => rfl
  · rfl

/-- No processing handoff is pending or in flight. -/
def Quiescent (s : Sys) : Prop :=
  s.pending = [] ∧ s.onstopPending = 0 ∧ s.running = []

/-- Strengthened mutual-exclusion invariant: while recording, processing
is off and nothing that could start it is pending. -/
def FlagsInv (s : Sys) : Prop :=
  s.vs.isRecording = true →
    s.vs.isProcessing = false ∧ s.pending = [] ∧ s.onstopPending = 0 ∧ s.running = []

theorem inv_forceStop (t : Sys) : FlagsInv (forceStopRecording t) := by
  intro h
  rw [forceStop_isRecording] at h
  exact absurd h (by simp)

theorem inv_start (s : Sys) (hI : FlagsInv s) (hq : Quiescent s) :
    FlagsInv (startRecording s) := by
  by_cases hg : (s.vs.isRecording || s.vs.isProcessing) = true
  · unfold startRecording
    rw [if_pos hg]
    exact hI
  · have hr : s.vs.isRecording = false := by
      cases h : s.vs.isRecording <;> simp_all
    have hp : s.vs.isProcessing = false := by
      cases h : s.vs.isProcessing <;> simp_all
    obtain ⟨-, -, -, -, -, -, hpend, honstop, hrun, hproc⟩ := startRecording_projs s hr hp
    intro _
    exact ⟨hproc.trans hp, hpend.trans hq.1, honstop.trans hq.2.1, hrun.trans hq.2.2⟩

theorem inv_stop (s : Sys) (hI : FlagsInv s) : FlagsInv (stopRecording s) := by
  unfold stopRecording
  split
  · exact inv_forceStop _
  · exact hI

theorem inv_recError (s : Sys) (hI : FlagsInv s) : FlagsInv (recorderError s) := by
  unfold recorderError
  split
  · exact inv_forceStop _
  · exact hI

theorem inv_tick (s : Sys) (hI : FlagsInv s) : FlagsInv (tick s) := by
  unfold tick
  by_cases ht : s.timerActive = true
  · rw [if_pos ht]
    by_cases hd : 30 ≤ s.vs.recordingTime + 1
    · rw [if_pos hd]
      exact inv_forceStop _
    · rw [if_neg hd]
      intro h
      exact hI h
  · rw [if_neg ht]
    exact hI

theorem inv_dataAvail (s : Sys) (n : Nat) (hI : FlagsInv s) :
    FlagsInv (dataAvailable s n) := by
  unfold dataAvailable
  split
  · intro h
    exact hI h
  · exact hI

theorem inv_onstop (s : Sys) (hI : FlagsInv s) : FlagsInv (onstopFire s) := by
  unfold onstopFire
  by_cases h : 0 < s.onstopPending
  · rw [if_pos h]
    intro hh
    obtain ⟨-, -, h0, -⟩ := hI hh
    omega
  · rw [if_neg h]
    exact hI

theorem inv_firePending (s : Sys) (hI : FlagsInv s) : FlagsInv (runPendingTask s) := by
  cases hp : s.pending with
  | nil =>
    unfold runPendingTask
    rw [hp]
    exact hI
  | cons a rest =>
    unfold runPendingTask
    rw [hp]
    show FlagsInv (processRecordingStart false { s with pending := rest })
    intro hh
    rw [proc_isRecording] at hh
    have hrec : s.vs.isRecording = true := hh
    obtain ⟨-, hpend, -, -⟩ := hI hrec
    rw [hp] at hpend
    exact absurd hpend (List.cons_ne_nil a rest)

theorem inv_analyze (s : Sys) (i : Nat) (o : FetchOutcome AnalyzeData)
    (ts : String) (hI : FlagsInv s) : FlagsInv (analyzeResponse s i o ts) := by
  cases hrun : s.running[i]? with
  | none =>
    unfold analyzeResponse
    rw [hrun]
    exact hI
  | some ph =>
    intro hh
    rw [analyze_isRecording] at hh
    obtain ⟨-, -, -, hr0⟩ := hI hh
    rw [hr0] at hrun
    simp at hrun

theorem inv_save (s : Sys) (i : Nat) (o : FetchOutcome SaveBody)
    (hI : FlagsInv s) : FlagsInv (saveResponse s i o) := by
  cases hrun : s.running[i]? with
  | none =>
    unfold saveResponse
    rw [hrun]
    exact hI
  | some ph =>
    intro hh
    rw [save_isRecording] at hh
    obtain ⟨-, -, -, hr0⟩ := hI hh
    rw [hr0] at hrun
    simp at hrun

/-- Executions in which `startRecording` is only invoked when no
processing handoff is pending or in flight. -/
inductive SafeReach : Sys → Prop where
  | init (cam : Bool) : SafeReach (initSys cam)
  | step {s : Sys} (e : Event) (h : SafeReach s)
      (hq : e = Event.userStart → Quiescent s) : SafeReach (stepEv s e)

/-- The strengthened invariant holds along every safe execution. -/
theorem safe_inv (s : Sys) (h : SafeReach s) : FlagsInv s := by
  induction h with
  | init cam => intro hh; exact absurd hh (by simp [initSys])
  | step e h hq ih =>
    cases e with
    | userStart => exact inv_start _ ih (hq rfl)
    | userStop => exact inv_stop _ ih
    | timerTick => exact inv_tick _ ih
    | recError => exact inv_recError _ ih
    | dataAvail n => exact inv_dataAvail _ n ih
    | recorderOnstop => exact inv_onstop _ ih
    | firePending => exact inv_firePending _ ih
    | analyzeResp i o ts => exact inv_analyze _ i o ts ih
    | saveResp i o => exact inv_save _ i o ih

/-- A session is stopped early, which schedules a processing handoff of
its non-empty chunk buffer; a new recording starts before that scheduled
callback fires; the stale callback then fires during the new recording. -/
def staleHandoffTrace : List Event :=
  [.userStart, .dataAvail 5, .userStop, .userStart, .dataAvail 7, .firePending]

/-- C7 counterexample: a reachable state with `isRecording` and
`isProcessing` both true.  The handoff that `forceStopRecording` of the first
session scheduled fires after the second session has started (nothing
cancels it and `startRecording` does not check for it); `isProcessing`
is false at that moment, so the guard passes and the processing flag goes
up while the recording flag is still up. -/
theorem flags_both_true :
    (run true staleHandoffTrace).vs.isRecording = true ∧
    (run true staleHandoffTrace).vs.isProcessing = true :=
  ⟨rfl, rfl⟩

/-- C7 (amended): in every execution in which `startRecording` is only
invoked while no processing handoff is pending or in flight (no scheduled
`processRecording` callback, no pending `onstop`, no suspended pipeline),
the flags `isRecording` and `isProcessing` are never both true.  Without
that restriction the property fails (see the counterexample). -/
theorem flags_mutex_of_safe_start (s : Sys) (h : SafeReach s) :
    ¬ (s.vs.isRecording = true ∧ s.vs.isProcessing = true) := by
  rintro ⟨h1, h2⟩
  obtain ⟨hp, -, -, -⟩ := safe_inv s h h1
  rw [hp] at h2
  exact absurd h2 (by simp)

/-- C7 witness: the amended theorem applied to the concrete safe state
reached by starting a recording on the freshly mounted component. -/
theorem flags_mutex_of_safe_start_witness :
    SafeReach (stepEv (initSys true) Event.userStart) ∧
    ¬ ((stepEv (initSys true) Event.userStart).vs.isRecording = true ∧
       (stepEv (initSys true) Event.userStart).vs.isProcessing = true) := by
  have hs : SafeReach (stepEv (initSys true) Event.userStart) :=
    SafeReach.step Event.userStart (SafeReach.init true) (fun _ => ⟨rfl, rfl, rfl⟩)
  exact ⟨hs, flags_mutex_of_safe_start _ hs⟩

/- ### C9: health probes -/

/-- C9: each probe of `checkHealth` that gets an HTTP response reports
`ok` exactly when the status is 2xx, with message `Connected` when ok and
`Error <status>` otherwise, and carries the measured latency; a probe
whose `fetch` throws reports `ok = false` with `errorType = CORS` and the
raw exception text; with the proxy enabled, both probe URLs are prefixed
with the fixed proxy origin and carry the `X-Requested-With` header. -/
theorem checkHealth_probe_classification (p : Bool) (st lat : Nat)
    (raw url : String) (ob orp : ProbeOutcome) :
    ((checkHealth p (.resp st lat) orp).1.ok = true ↔ (200 ≤ st ∧ st < 300)) ∧
    ((checkHealth p ob (.resp st lat)).2.ok = true ↔ (200 ≤ st ∧ st < 300)) ∧
    ((checkHealth p (.resp st lat) orp).1.ok = true →
      (checkHealth p (.resp st lat) orp).1.message = "Connected") ∧
    ((checkHealth p (.resp st lat) orp).1.ok = false →
      (checkHealth p (.resp st lat) orp).1.message = "Error " ++ toString st) ∧
    ((checkHealth p (.resp st lat) orp).1.latency = some lat) ∧
    ((checkHealth p (.thrown raw) orp).1.ok = false ∧
     (checkHealth p (.thrown raw) orp).1.errorType = some "CORS" ∧
     (checkHealth p (.thrown raw) orp).1.rawError = some raw) ∧
    ((checkHealth p ob (.thrown raw)).2.errorType = some "CORS") ∧
    ((probeRequest true url).targetUrl = CORS_PROXY ++ url) ∧
    ((probeRequest true url).headers = [("X-Requested-With", "XMLHttpRequest")]) ∧
    ((probeRequest false url).targetUrl = url) ∧
    ((probeRequest false url).headers = []) ∧
    ((checkHealthRequests p).1 = probeRequest p (BACKEND_URL ++ "/api/health")) ∧
    ((checkHealthRequests p).2 = probeRequest p (RPPG_URL ++ "/health")) := by
  refine ⟨?_, ?_, ?_, ?_, rfl, ⟨rfl, rfl, rfl⟩, rfl, ?_, ?_, ?_, ?_, rfl, rfl⟩
  · simp [checkHealth, check, respOkStatus]
  · simp [checkHealth, check, respOkStatus]
  · intro h
    simp only [checkHealth, check] at h ⊢
    rw [if_pos h]
  · intro h
    simp only [checkHealth, check] at h ⊢
    rw [if_neg (by simp [h])]
  · simp [probeRequest]
  · simp [probeRequest]
  · simp [probeRequest]
  · simp [probeRequest]

/-- C9 witness: a 2xx backend probe, a 503 rPPG probe and a thrown probe,
with the proxy enabled. -/
theorem checkHealth_probe_classification_witness :
    (checkHealth true (.resp 200 5) (.resp 503 7)).1.ok = true ∧
    (checkHealth true (.resp 200 5) (.resp 503 7)).1.message = "Connected" ∧
    (checkHealth true (.resp 200 5) (.resp 503 7)).2.ok = false ∧
    (checkHealth true (.resp 200 5) (.thrown "TypeError: Failed to fetch")).2.errorType =
      some "CORS" ∧
    (checkHealthRequests true).1.targetUrl =
      CORS_PROXY ++ (BACKEND_URL ++ "/api/health") := by
  have h := checkHealth_probe_classification true 200 5 "TypeError: Failed to fetch"
    (BACKEND_URL ++ "/api/health") (.resp 200 5) (.resp 503 7)
  refine ⟨h.1.mpr (by omega), h.2.2.1 (h.1.mpr (by omega)), ?_, h.2.2.2.2.2.2.1, ?_⟩
  · decide
  · rw [h.2.2.2.2.2.2.2.2.2.2.2.1]
    exact (checkHealth_probe_classification true 200 5 "x"
      (BACKEND_URL ++ "/api/health") (.resp 200 5) (.resp 503 7)).2.2.2.2.2.2.2.1

/- ### C10: scan history retrieval -/

/-- C10: `getScanHistory` is total — a thrown transport error, a non-2xx
response or an unparseable body all yield the empty list — and on a 2xx
response with parsed data it returns exactly one mapped record per fetched
record, in the same order, each carrying over the seven forwarded fields. -/
theorem getScanHistory_total_mapping (msg : String) (st : Nat)
    (data : List ScanDoc) (b : JsonResult (List ScanDoc)) :
    (getScanHistory (.thrown msg) = []) ∧
    (getScanHistory (.resp false st b) = []) ∧
    (getScanHistory (.resp true st (.parseError msg)) = []) ∧
    ((getScanHistory (.resp true st (.value data))).length = data.length) ∧
    (∀ i : Nat, (getScanHistory (.resp true st (.value data)))[i]? =
      (data[i]?).map mapScan) ∧
    (∀ doc : ScanDoc,
      (mapScan doc).heartRate = doc.heartRate ∧
      (mapScan doc).hrv = doc.hrv ∧
      (mapScan doc).bloodPressure = doc.bloodPressure ∧
      (mapScan doc).stressIndex = doc.stressIndex ∧
      (mapScan doc).aiInterpretation = doc.aiInterpretation ∧
      (mapScan doc).timestamp = doc.timestamp ∧
      (mapScan doc).mongoId = doc.mongoId) := by
  refine ⟨rfl, rfl, rfl, ?_, ?_, ?_⟩
  · simp [getScanHistory]
  · intro i
    simp [getScanHistory]
  · intro doc
    exact ⟨rfl, rfl, rfl, rfl, rfl, rfl, rfl⟩

/-- A stored scan document, including the two fields the mapping drops. -/
def sampleDoc : ScanDoc :=
  { heartRate := 72
    hrv := 40
    bloodPressure := { systolic := 120, diastolic := 80 }
    stressIndex := 30
    aiInterpretation := "Scan completed successfully."
    timestamp := "2026-01-01T00:00:00.000Z"
    mongoId := "66f0a"
    confidence := 85
    userId := "default-user" }

/-- C10 witness: the theorem applied to a one-document fetch and to a
thrown transport error. -/
theorem getScanHistory_total_mapping_witness :
    getScanHistory (.thrown "TypeError: Failed to fetch") = [] ∧
    getScanHistory (.resp false 500 (.value [sampleDoc])) = [] ∧
    (getScanHistory (.resp true 200 (.value [sampleDoc]))).length = 1 ∧
    (getScanHistory (.resp true 200 (.value [sampleDoc])))[0]? =
      some (mapScan sampleDoc) := by
  have h := getScanHistory_total_mapping "TypeError: Failed to fetch" 200
    [sampleDoc] (.value [sampleDoc])
  refine ⟨h.1, ?_, h.2.2.2.1, (h.2.2.2.2.1 0).trans rfl⟩
  exact (getScanHistory_total_mapping "m" 500 [sampleDoc] (.value [sampleDoc])).2.1

end CardiiiX
